import Mathlib

/-!
Verification development for the promptgen request/response pipeline.

The definitions below are a shallow embedding of the repository's current
implementation: `promptgen.go` (the `Generator`, `Create`, `ensureDefaultConfig`
and `Run` of the final variant), the streaming multiplexer (`Stream`), the
JSON output handler (`internal/json`), the schema validator's message
aggregation (`internal/json/schema.go`), the handler-type factory
(`internal/handler`, `internal/primitive/factory.go`), and the error taxonomy
(`errors.go`).  External collaborators (the OpenAI client, `encoding/json`
decoding, the `gojsonschema` engine, Go's `text/template` runtime) are
represented by explicitly passed functions or by small faithful models of the
exact features the source exercises.
-/

namespace Promptgen

/-- The sentinel error values of the system.  The first seven are
`errors.New` values from the package's `errors.go`; `providerRateLimit` and
`providerContextLength` are the distinct `errors.New` values of package
`provider`; `ctxDeadline` and `ctxCanceled` are Go's `context.DeadlineExceeded`
and `context.Canceled`. -/
inductive Sentinel where
  | noProvider
  | invalidResponse
  | validation
  | configuration
  | timeout
  | rateLimit
  | contextLength
  | providerRateLimit
  | providerContextLength
  | ctxDeadline
  | ctxCanceled
deriving DecidableEq, Repr

/-- The message text of each sentinel, exactly the `errors.New` strings. -/
def Sentinel.text : Sentinel → String
  | .noProvider => "no provider configured"
  | .invalidResponse => "invalid response from provider"
  | .validation => "validation failed"
  | .configuration => "invalid configuration"
  | .timeout => "request timeout"
  | .rateLimit => "rate limit exceeded"
  | .contextLength => "context length exceeded"
  | .providerRateLimit => "rate limit exceeded"
  | .providerContextLength => "context length exceeded"
  | .ctxDeadline => "context deadline exceeded"
  | .ctxCanceled => "context canceled"

/-- A Go `error` value as used by this code base: a sentinel, a plain
`errors.New`/`fmt.Errorf` message, a `fmt.Errorf("...: %w", e)` wrapper, or the
package's `Error` struct (`errors.go`): `Error\x7bErr, Code, Message\x7d`, whose
`Unwrap` returns `Err`. -/
inductive GoError where
  | sentinel (s : Sentinel)
  | msg (m : String)
  | wrap (m : String) (e : GoError)
  | structured (code message : String) (e : GoError)
deriving DecidableEq, Repr

/-- `errors.Is(e, target)` for a sentinel target: compare, then follow the
`Unwrap` chain (`fmt.Errorf("%w")` wrappers and `Error.Unwrap`). -/
def GoError.is : GoError → Sentinel → Bool
  | .sentinel s', s => s' = s
  | .msg _, _ => false
  | .wrap _ e, s => e.is s
  | .structured _ _ e, s => e.is s

/-- The `Error() string` method of each error form.  For the `Error` struct it
is `fmt.Sprintf("%s: %s", e.Code, e.Message)`; a `%w` wrapper renders as
`"<prefix>: <wrapped>"`. -/
def GoError.text : GoError → String
  | .sentinel s => s.text
  | .msg m => m
  | .wrap m e => m ++ ": " ++ e.text
  | .structured code message _ => code ++ ": " ++ message

/-- Sentinel `ErrNoProvider` of `errors.go`. -/
def ErrNoProvider : GoError := .sentinel .noProvider

/-- Sentinel `ErrInvalidResponse` of `errors.go`. -/
def ErrInvalidResponse : GoError := .sentinel .invalidResponse

/-- Sentinel `ErrValidation` of `errors.go`. -/
def ErrValidation : GoError := .sentinel .validation

/-- Sentinel `ErrConfiguration` of `errors.go`. -/
def ErrConfiguration : GoError := .sentinel .configuration

/-- Sentinel `ErrTimeout` of `errors.go`. -/
def ErrTimeout : GoError := .sentinel .timeout

/-- Sentinel `ErrRateLimit` of `errors.go`. -/
def ErrRateLimit : GoError := .sentinel .rateLimit

/-- Sentinel `ErrContextLength` of `errors.go`. -/
def ErrContextLength : GoError := .sentinel .contextLength

/-- `errors.Is` on a possibly-nil Go error (`errors.Is(nil, target) = false`). -/
def errorsIs (e : Option GoError) (s : Sentinel) : Bool :=
  match e with
  | none => false
  | some e => e.is s

/-- Predicate `IsValidation` of `errors.go`. -/
def IsValidation (e : Option GoError) : Bool := errorsIs e .validation

/-- Predicate `IsTimeout` of `errors.go`. -/
def IsTimeout (e : Option GoError) : Bool := errorsIs e .timeout

/-- Predicate `IsRateLimit` of `errors.go`. -/
def IsRateLimit (e : Option GoError) : Bool := errorsIs e .rateLimit

/-- Predicate `IsContextLength` of `errors.go`. -/
def IsContextLength (e : Option GoError) : Bool := errorsIs e .contextLength

/-! ### Fenced-block extraction

`internal/json` extracts JSON from markdown code blocks with the regular
expression pattern (triple backtick)(?:json)?([\s\S]*?)(triple backtick),
using `FindStringSubmatch` (leftmost-first match, greedy optional `json` tag,
lazy body).  We implement that match directly on character lists. -/

/-- The backtick character. -/
def bq : Char := '\x60'

/-- Three backticks, the fence delimiter of the extraction pattern. -/
def bq3 : List Char := [bq, bq, bq]

/-- The characters of the optional `json` tag of the extraction pattern. -/
def jsonTag : List Char := ['j', 's', 'o', 'n']

/-- Drop `p` from the front of `cs` if it is literally a prefix; otherwise
`none`. -/
def dropPre : List Char → List Char → Option (List Char)
  | [], cs => some cs
  | _ :: _, [] => none
  | p :: ps, c :: cs => if p = c then dropPre ps cs else none

/-- Split `cs` at the leftmost occurrence of `pat`:
`cs = before ++ pat ++ after`. -/
def splitAtPat (pat : List Char) : List Char → Option (List Char × List Char)
  | [] =>
    match dropPre pat [] with
    | some rest => some ([], rest)
    | none => none
  | c :: cs =>
    match dropPre pat (c :: cs) with
    | some rest => some ([], rest)
    | none =>
      match splitAtPat pat cs with
      | some (pre, rest) => some (c :: pre, rest)
      | none => none

/-- Given the text after an opening fence, the captured body of the regex
match attempt anchored there: the greedy `(?:json)?` group first tries to
consume a literal `json`, the lazy body then runs to the nearest closing
fence; if that branch cannot close, the engine retries with the empty
alternative of the optional group. -/
def fencedBody (afterOpen : List Char) : Option (List Char) :=
  match dropPre jsonTag afterOpen with
  | some afterJson =>
    match splitAtPat bq3 afterJson with
    | some (body, _) => some body
    | none =>
      match splitAtPat bq3 afterOpen with
      | some (body, _) => some body
      | none => none
  | none =>
    match splitAtPat bq3 afterOpen with
    | some (body, _) => some body
    | none => none

/-- Leftmost-first search: try a full match at each successive start
position, as `FindStringSubmatch` does. -/
def extractLoop : List Char → Option (List Char)
  | [] => none
  | c :: cs =>
    match dropPre bq3 (c :: cs) with
    | some afterOpen =>
      match fencedBody afterOpen with
      | some body => some body
      | none => extractLoop cs
    | none => extractLoop cs

/-- The submatch (capture group 1) of the first match of the extraction
pattern in `s`, or `none` when the pattern does not match. -/
def extractFenced (s : String) : Option String :=
  (extractLoop s.toList).map fun body => String.mk body

/-- The `jsonStr` computed by the JSON handler's `Parse` (internal/json,
lines 42-46): the first fenced block when the pattern matches, otherwise the
whole reply. -/
def extractOr (resp : String) : String :=
  match extractFenced resp with
  | some b => b
  | none => resp

/-! ### Template model

`Create` compiles the prompt with Go's `text/template` and probes it against a
zero-valued input; `Run` executes it against the caller's input.  The model
covers the feature the source exercises: literal text interleaved with
`\x7b\x7b.Field\x7d\x7d` actions.  A bare identifier inside an action is a
function call in `text/template` and is rejected at parse time when no such
function is defined (`function "name" not defined`); no functions are
registered by `Create`. -/

/-- The opening brace character. -/
def obr : Char := '\x7b'

/-- The closing brace character. -/
def cbr : Char := '\x7d'

/-- The action-open delimiter, two opening braces. -/
def actOpen : List Char := [obr, obr]

/-- The action-close delimiter, two closing braces. -/
def actClose : List Char := [cbr, cbr]

/-- One parsed node of a template: literal text or a field action. -/
inductive TmplPart where
  | lit (s : String)
  | field (name : String)
deriving DecidableEq, Repr

/-- Go's `unicode.IsSpace` on the whitespace the sources use. -/
def isWS (c : Char) : Bool := c = ' ' ∨ c = '\n' ∨ c = '\t' ∨ c = '\r'

/-- Trim leading and trailing whitespace from a character list. -/
def trimWS (cs : List Char) : List Char :=
  ((cs.dropWhile isWS).reverse.dropWhile isWS).reverse

/-- Parse the template text into nodes, mirroring `text/template` parsing of
the fragment the source uses: scan to the next `\x7b\x7b`, read the action up
to `\x7d\x7d`, accept `.Field` references, and reject bare identifiers as
undefined functions.  The structural fuel is spent once per action; each
action consumes at least four characters, so the fuel `parseTemplate` supplies
can never run out. -/
def parseActions : Nat → List Char → Except GoError (List TmplPart)
  | 0, _ => .error (.msg "template nesting too deep")
  | fuel + 1, cs =>
    match splitAtPat actOpen cs with
    | none => .ok [.lit (String.mk cs)]
    | some (pre, rest) =>
      match splitAtPat actClose rest with
      | none => .error (.msg "unclosed action")
      | some (action, rest2) =>
        match trimWS action with
        | [] => .error (.msg "missing value for command")
        | c :: body =>
          if c = '.' then
            match parseActions fuel rest2 with
            | .ok parts =>
              .ok (.lit (String.mk pre) :: .field (String.mk body) :: parts)
            | .error e => .error e
          else
            .error (.msg ("function " ++ String.mk (c :: body) ++ " not defined"))

/-- `template.Parse` on the fragment of `text/template` the source uses. -/
def parseTemplate (s : String) : Except GoError (List TmplPart) :=
  parseActions (s.toList.length + 1) s.toList

/-- `Template.Execute`: substitute each field action using the input's field
values; a field the input does not have is an execution error. -/
def executeTemplate (parts : List TmplPart) (input : String → Option String) :
    Except GoError String :=
  match parts with
  | [] => .ok ""
  | .lit s :: rest =>
    match executeTemplate rest input with
    | .ok t => .ok (s ++ t)
    | .error e => .error e
  | .field n :: rest =>
    match input n with
    | none => .error (.msg ("can\x27t evaluate field " ++ n))
    | some v =>
      match executeTemplate rest input with
      | .ok t => .ok (v ++ t)
      | .error e => .error e

/-- The template work of `Create` (promptgen.go, final variant, lines
618-630): parse the template, then validate its variables by executing it
against a zero-valued input, wrapping each failure as the source does. -/
def templateCreate (s : String) (zeroInput : String → Option String) :
    Except GoError (List TmplPart) :=
  match parseTemplate s with
  | .error e => .error (.wrap "invalid template" e)
  | .ok parts =>
    match executeTemplate parts zeroInput with
    | .error e => .error (.wrap "invalid template variables" e)
    | .ok _ => .ok parts

/-! ### Hooks and output handlers -/

/-- A hook (hooks.go): pure transformers of the outbound prompt and the
inbound response.  Both call sites of `AfterResponse` in the current sources
pass a nil incoming error, so the incoming-error parameter is dropped. -/
structure Hook where
  beforeRequest : String → Except GoError String
  afterResponse : String → Except GoError String

/-- The `BeforeRequest` loop shared by `Run` and `Stream`: hooks in
registration order, a failure aborting with `fmt.Errorf("hook error: %w", err)`. -/
def beforeChain (hooks : List Hook) (p : String) : Except GoError String :=
  match hooks with
  | [] => .ok p
  | h :: rest =>
    match h.beforeRequest p with
    | .ok p2 => beforeChain rest p2
    | .error e => .error (.wrap "hook error" e)

/-- The `AfterResponse` loop shared by `Run` (on the whole response) and the
stream multiplexer (on each token): hooks in registration order with a nil
incoming error, a failure aborting with `fmt.Errorf("hook error: %w", err)`. -/
def afterChain (hooks : List Hook) (r : String) : Except GoError String :=
  match hooks with
  | [] => .ok r
  | h :: rest =>
    match h.afterResponse r with
    | .ok r2 => afterChain rest r2
    | .error e => .error (.wrap "hook error" e)

/-- An output handler (internal/handler): prompt wrapping, parsing and
validation bound to the output type `O`. -/
structure Handler (O : Type) where
  wrapPrompt : String → String
  parse : String → Except GoError O
  validate : O → Option GoError

/-- The characters of the prefix `(root).` that `Validator.Validate` strips
from each violation message. -/
def rootPre : List Char := "(root).".toList

/-- `strings.TrimPrefix(msg, "(root).")` applied to each violation message in
`internal/json/schema.go`. -/
def trimRoot (s : String) : String :=
  match dropPre rootPre s.toList with
  | some rest => String.mk rest
  | none => s

/-- `Validator.Validate` of `internal/json/schema.go`: run the (external)
`gojsonschema` engine, represented by the function `engine` from document
bytes to the rendered violation messages; when any violations exist, return
one error whose message joins them, each with its `(root).` prefix trimmed,
with the separator `"; "`. -/
def validatorValidate (engine : String → List String) (data : String) :
    Option GoError :=
  match engine data with
  | [] => none
  | v :: vs => some (.msg (String.intercalate "; " ((v :: vs).map trimRoot)))

/-- First fragment of the JSON handler's prompt wrapper (internal/json,
`WrapPrompt`). -/
def jsonWrapA : String :=
  "\n\nFormat your response according to this JSON schema, pay close attention to the validation rules in the schema:\n"

/-- Second fragment of the JSON handler's prompt wrapper (internal/json,
`WrapPrompt`). -/
def jsonWrapB : String :=
  "\n\nProvide the result enclosed in triple backticks with \x27json\x27 on the first line.\nDon\x27t put control characters in the wrong place or the JSON will be invalid."

/-- The structured-JSON handler of `internal/json`.  `dec` is the external
`json.Unmarshal` into `O`, `marshal` the external `json.Marshal` (total for
the plain struct types this development instantiates), `engine` the external
schema engine, `schemaStr` the reflected schema text.  `Parse` extracts a
fenced block when the extraction pattern matches, otherwise falls back to the
whole reply, then decodes; `Validate` re-serializes and runs the schema
validator. -/
def jsonHandler {O : Type} (schemaStr : String) (dec : String → Except GoError O)
    (marshal : O → String) (engine : String → List String) : Handler O where
  wrapPrompt := fun base => base ++ jsonWrapA ++ schemaStr ++ jsonWrapB
  parse := fun resp =>
    match dec (extractOr resp) with
    | .ok o => .ok o
    | .error e => .error (.wrap "failed to parse JSON" e)
  validate := fun o => validatorValidate engine (marshal o)

/-! ### Handler-type selection (internal/handler, internal/primitive/factory.go) -/

/-- A Go type as inspected by the `DetermineType` type switch: the four
special-cased shapes plus representatives of every other shape (which the
switch's default arm treats alike). -/
inductive GoType where
  | stringT
  | intT
  | float64T
  | boolT
  | int64T
  | float32T
  | uintT
  | structT (name : String)
  | sliceT (elem : String)
  | mapT (key value : String)
  | ptrT (elem : String)
deriving DecidableEq, Repr

/-- The `Type` enumeration of `internal/handler`. -/
inductive HandlerType where
  | typeUnknown
  | typeString
  | typeJSON
  | typePrimitive
deriving DecidableEq, Repr

/-- `DetermineType` (internal/handler/handler.go): `string` is textual,
`int`, `float64` and `bool` are primitive, everything else is JSON. -/
def DetermineType : GoType → HandlerType
  | .stringT => .typeString
  | .intT => .typePrimitive
  | .float64T => .typePrimitive
  | .boolT => .typePrimitive
  | _ => .typeJSON

/-- Which concrete handler implementation a factory produces. -/
inductive HandlerKind where
  | stringH
  | intH
  | floatH
  | boolH
  | jsonH
deriving DecidableEq, Repr

/-- `primitive.New` (internal/primitive/factory.go): a second type switch
dispatching to the string/int/float/bool handlers, any other type being
rejected. -/
def primitiveNew : GoType → Except GoError HandlerKind
  | .stringT => .ok .stringH
  | .intT => .ok .intH
  | .float64T => .ok .floatH
  | .boolT => .ok .boolH
  | _ => .error (.msg "type is not a supported primitive type")

/-- The handler-selection switch of `Create` (promptgen.go, final variant,
lines 632-642): `TypeString` and `TypePrimitive` go to `primitive.New`,
`TypeJSON` to the JSON handler; on `TypeUnknown` the switch has no arm, so
the handler stays nil (`none`) with no error. -/
def createHandlerKind (t : GoType) : Except GoError (Option HandlerKind) :=
  match DetermineType t with
  | .typeString =>
    match primitiveNew t with
    | .ok k => .ok (some k)
    | .error e => .error (.wrap "failed to create handler" e)
  | .typePrimitive =>
    match primitiveNew t with
    | .ok k => .ok (some k)
    | .error e => .error (.wrap "failed to create handler" e)
  | .typeJSON => .ok (some .jsonH)
  | .typeUnknown => .ok none

/-! ### The Generator and the synchronous Run pipeline
(promptgen.go, final variant, lines 608-783) -/

/-- `context.Canceled` / `context.DeadlineExceeded` as the possible non-nil
values of `ctx.Err()`. -/
inductive CtxErr where
  | deadline
  | canceled
deriving DecidableEq, Repr

/-- The Go error value of each context error. -/
def CtxErr.toErr : CtxErr → GoError
  | .deadline => .sentinel .ctxDeadline
  | .canceled => .sentinel .ctxCanceled

/-- The `Generator` struct: compiled template, chosen handler, configuration.
`hasProvider` stands for `provider != nil`, `timeout` for the configured
duration in nanoseconds (`0` = unset).  `zero` is the zero value of `O`
(`var output O` in `Run`), which the Go type carries implicitly. -/
structure Generator (O : Type) where
  tmpl : List TmplPart
  handler : Handler O
  hasProvider : Bool
  hooks : List Hook
  timeout : Nat
  zero : O

/-- The effectful surroundings of one `Run` call: the process environment's
`OPENAI_API_KEY`, the backend's `Complete` on the final prompt, and the value
`ctx.Err()` has once `Complete` has returned. -/
structure RunEnv where
  apiKey : String
  complete : String → Except GoError String
  ctxErrAfter : Option CtxErr

/-- `ensureDefaultConfig` (promptgen.go, final variant, lines 651-660) with
`provider.DefaultOpenAI` (its body reads `OPENAI_API_KEY` and fails when it
is empty): when a provider is already set do nothing; otherwise fail with the
wrapped configuration message when the key is absent. -/
def ensureDefaultConfig (hasProvider : Bool) (apiKey : String) : Option GoError :=
  if hasProvider then none
  else if apiKey = "" then
    some (.wrap "failed to create default provider"
      (.msg "OPENAI_API_KEY environment variable is required"))
  else none

/-- The stages of `Run` before the backend call (lines 666-697): resolve
default configuration (wrapping a failure into the `Error` struct with code
`config_error` and kind `ErrConfiguration`), execute the template, wrap the
prompt with the handler's instructions, and run the `BeforeRequest` hooks. -/
def runPrelude {O : Type} (g : Generator O) (env : RunEnv)
    (input : String → Option String) : Except GoError String :=
  match ensureDefaultConfig g.hasProvider env.apiKey with
  | some e => .error (.structured "config_error" e.text ErrConfiguration)
  | none =>
    match executeTemplate g.tmpl input with
    | .error e => .error (.wrap "failed to execute template" e)
    | .ok rendered => beforeChain g.hooks (g.handler.wrapPrompt rendered)

/-- The error-classification switch of `Run` (lines 702-716), applied when
`Complete` returns a non-nil error: deadline expiry (of the error chain or of
the call's context) becomes `ErrTimeout`, caller cancellation is wrapped as
`request canceled`, the provider's rate-limit and context-length sentinels are
reclassified to the package's sentinels, and anything else passes through. -/
def classifyCompleteError (err : GoError) (ctxAfter : Option CtxErr) : GoError :=
  if err.is .ctxDeadline ∨ ctxAfter = some .deadline then ErrTimeout
  else if err.is .ctxCanceled then .wrap "request canceled" err
  else if err.is .providerRateLimit then ErrRateLimit
  else if err.is .providerContextLength then ErrContextLength
  else err

/-- `Generator.Run` (promptgen.go, final variant, lines 663-759).  After the
prelude: call `Complete`; classify a non-nil error; re-check `ctx.Err()` after
a successful response (deadline becomes `ErrTimeout`, cancellation becomes a
`request canceled` wrap of `ctx.Err()`); run the `AfterResponse` hooks; parse
(a failure becoming the `Error` struct with code `parse_failed` and kind
`ErrInvalidResponse`); validate (a failure becoming code `validation_failed`
and kind `ErrValidation`).  The returned pair is Go's `(O, error)`: the zero
value accompanies every failure before parsing, the parsed value accompanies
a validation failure and the nil-error success. -/
def Run {O : Type} (g : Generator O) (env : RunEnv)
    (input : String → Option String) : O × Option GoError :=
  match runPrelude g env input with
  | .error e => (g.zero, some e)
  | .ok prompt =>
    match env.complete prompt with
    | .error err => (g.zero, some (classifyCompleteError err env.ctxErrAfter))
    | .ok resp0 =>
      match env.ctxErrAfter with
      | some .deadline => (g.zero, some ErrTimeout)
      | some .canceled =>
        (g.zero, some (.wrap "request canceled" (.sentinel .ctxCanceled)))
      | none =>
        match afterChain g.hooks resp0 with
        | .error e => (g.zero, some e)
        | .ok resp =>
          match g.handler.parse resp with
          | .error e =>
            (g.zero, some (.structured "parse_failed"
              ("failed to parse response: " ++ e.text) ErrInvalidResponse))
          | .ok output =>
            match g.handler.validate output with
            | some e =>
              (output, some (.structured "validation_failed" e.text ErrValidation))
            | none => (output, none)

/-! ### Generator.Stream (stream.go, current variant) -/

/-- The synchronous part of `Generator.Stream` (lines 17-49): resolve default
configuration (returning its error unwrapped, unlike `Run`), execute the
template, wrap, run the `BeforeRequest` hooks, and initiate the provider
stream (`initErr` is the initiation error the provider returns, wrapped as
`provider stream failed`).  On success the final prompt has been handed to
the provider and the multiplexer task starts. -/
def streamSetup {O : Type} (g : Generator O) (apiKey : String)
    (input : String → Option String) (initErr : Option GoError) :
    Except GoError String :=
  match ensureDefaultConfig g.hasProvider apiKey with
  | some e => .error e
  | none =>
    match executeTemplate g.tmpl input with
    | .error e => .error (.wrap "failed to execute template" e)
    | .ok rendered =>
      match beforeChain g.hooks (g.handler.wrapPrompt rendered) with
      | .error e => .error e
      | .ok prompt =>
        match initErr with
        | some e => .error (.wrap "provider stream failed" e)
        | none => .ok prompt

/-- One outcome of the multiplexer's `select` (lines 64-107), chosen by the
scheduler among the ready channel operations:
* `ctxDone ce`: the context fired with `ctx.Err() = ce`;
* `token t preempt`: a content token was received; `preempt = some ce` means
  the context fired while the forwarding send was blocked (the inner
  send-select, lines 95-100), `none` means the consumer accepted the token;
* `contentClosed inner`: the content source was observed closed; `inner` is
  the outcome of the nonblocking error-check select (lines 73-81): `none`
  means no receive was ready (`default:` fires), `some e?` means the receive
  fired yielding `e?` — a pending error value, or `none` (Go `nil`) when the
  error source is already closed, since a closed channel is always ready;
* `errItem e?`: the error source yielded a value with `ok = true`;
* `errClosed`: the error source was observed closed (`ok = false`), which the
  loop skips with `continue`. -/
inductive SelEvent where
  | ctxDone (ce : CtxErr)
  | token (t : String) (preempt : Option CtxErr)
  | contentClosed (inner : Option (Option GoError))
  | errItem (e : Option GoError)
  | errClosed
deriving DecidableEq, Repr

/-- One observable action of the multiplexer on its three output channels:
a send of a token on `Content`, a send of a (possibly nil) error on `Err`,
a send of the completion marker on `Done`, or the close of one channel. -/
inductive OutEvent where
  | tok (s : String)
  | errOut (e : Option GoError)
  | doneOut
  | closeContent
  | closeErr
  | closeDone
deriving DecidableEq, Repr

/-- The multiplexer loop body (lines 64-107) driven by a scheduler-chosen
sequence of select outcomes, producing the sends it performs until it
returns; `none` when the outcome sequence ends without the task returning
(the task would still be blocked in its select). -/
def muxLoop (hooks : List Hook) : List SelEvent → Option (List OutEvent)
  | [] => none
  | .ctxDone ce :: _ => some [.errOut (some ce.toErr)]
  | .contentClosed (some e?) :: _ => some [.errOut e?]
  | .contentClosed none :: _ => some [.doneOut]
  | .errItem e? :: _ => some [.errOut e?]
  | .errClosed :: rest => muxLoop hooks rest
  | .token t preempt :: rest =>
    match afterChain hooks t with
    | .error he => some [.errOut (some he)]
    | .ok t2 =>
      match preempt with
      | some ce => some [.errOut (some ce.toErr)]
      | none =>
        match muxLoop hooks rest with
        | some tr => some (.tok t2 :: tr)
        | none => none

/-- A terminated execution of the multiplexer task: the loop's sends followed
by the deferred closes of `Content`, `Err` and `Done` (lines 58-62). -/
def muxRun (hooks : List Hook) (events : List SelEvent) : Option (List OutEvent) :=
  match muxLoop hooks events with
  | some tr => some (tr ++ [.closeContent, .closeErr, .closeDone])
  | none => none

/-- Whether an output event is a terminal signal: a send on `Err` or on
`Done`. -/
def isTerminal : OutEvent → Bool
  | .errOut _ => true
  | .doneOut => true
  | _ => false

/-- Whether an output event is a content-token send. -/
def isTok : OutEvent → Bool
  | .tok _ => true
  | _ => false

/-- Whether an output event is an error-signal send. -/
def isErrOut : OutEvent → Bool
  | .errOut _ => true
  | _ => false

/-- Whether an output event is a channel close. -/
def isClose : OutEvent → Bool
  | .closeContent => true
  | .closeErr => true
  | .closeDone => true
  | _ => false

/-- The number of terminal signals in a trace. -/
def terminalCount (tr : List OutEvent) : Nat := (tr.filter isTerminal).length

/-- No content token is sent at any point after an error signal has been
sent. -/
def noContentAfterError : List OutEvent → Bool
  | [] => true
  | e :: rest =>
    if isErrOut e then rest.all fun x => !isTok x
    else noContentAfterError rest

/-- The error wrap the JSON handler's `Parse` applies to a decode result
(`fmt.Errorf("failed to parse JSON: %w", err)` on failure, identity on
success). -/
def wrapDec {O : Type} (r : Except GoError O) : Except GoError O :=
  match r with
  | .ok o => .ok o
  | .error e => .error (.wrap "failed to parse JSON" e)

/-- Whether a character list contains no backtick. -/
def bqFree (cs : List Char) : Bool := cs.all fun c => c ≠ bq

/-! ### A concrete instantiation

A minimal structured output type with one string field carrying the schema
constraint `maxLength=5`, together with concrete decode/marshal functions and
a concrete schema-engine behavior for it.  These play the role of the test
types of `promptgen_test.go` and let every hypothesis of the pipeline
theorems be discharged on closed inputs. -/

/-- A structured output type with a single string field `message`. -/
structure TestOut where
  message : String
deriving DecidableEq, Repr

/-- The JSON prefix of the serialized `TestOut`. -/
def msgOpen : List Char := "\x7b\"message\":\"".toList

/-- The JSON suffix of the serialized `TestOut`. -/
def msgClose : List Char := "\"\x7d".toList

/-- `json.Marshal` on `TestOut` (its field values here contain no characters
needing escapes). -/
def marshalTestOut (o : TestOut) : String :=
  "\x7b\"message\":\"" ++ o.message ++ "\"\x7d"

/-- Drop `suf` from the end of `cs` if it is literally a suffix. -/
def stripSuf (suf cs : List Char) : Option (List Char) :=
  match dropPre suf.reverse cs.reverse with
  | some rest => some rest.reverse
  | none => none

/-- `json.Unmarshal` into `TestOut`: tolerate surrounding whitespace, then
require exactly one `message` string field with an escape-free value. -/
def decodeTestOut (s : String) : Except GoError TestOut :=
  match dropPre msgOpen (trimWS s.toList) with
  | none => .error (.msg "invalid JSON for TestOut")
  | some rest =>
    match stripSuf msgClose rest with
    | none => .error (.msg "invalid JSON for TestOut")
    | some mid =>
      if mid.any fun c => c = '"' ∨ c = '\\' then
        .error (.msg "invalid JSON for TestOut")
      else .ok ⟨String.mk mid⟩

/-- The `gojsonschema` engine's behavior for the `TestOut` schema
(`message` required, `maxLength=5`): the rendered violation list for a
document. -/
def engine5 (data : String) : List String :=
  match decodeTestOut data with
  | .error _ => ["(root): Invalid type. Expected: object, given: string"]
  | .ok o =>
    if o.message.length ≤ 5 then []
    else ["(root).message: String length must be less than or equal to 5"]

/-- The reflected schema text for `TestOut` (opaque to the pipeline). -/
def schemaW : String :=
  "\x7b \"properties\": \x7b \"message\": \x7b \"type\": \"string\", \"maxLength\": 5 \x7d \x7d, \"required\": [\"message\"], \"type\": \"object\" \x7d"

/-- The JSON handler instantiated at `TestOut`. -/
def handlerW : Handler TestOut :=
  jsonHandler schemaW decodeTestOut marshalTestOut engine5

/-- A configured generator over `TestOut` with a provider set, no hooks and
no timeout. -/
def gW : Generator TestOut where
  tmpl := [.lit "test prompt"]
  handler := handlerW
  hasProvider := true
  hooks := []
  timeout := 0
  zero := ⟨""⟩

/-- `gW` with a one-second timeout configured. -/
def gTimeoutW : Generator TestOut := { gW with timeout := 1000000000 }

/-- `gW` with no provider configured. -/
def gNoProvW : Generator TestOut := { gW with hasProvider := false }

/-- The input binding for `gW`'s field-free template. -/
def inputW : String → Option String := fun _ => none

/-- The final prompt `runPrelude` produces for `gW`. -/
def pW : String := "test prompt" ++ jsonWrapA ++ schemaW ++ jsonWrapB

/-- A backend reply whose fenced block decodes and satisfies the schema. -/
def replyHappy : String := "```json\n\x7b\"message\":\"hi\"\x7d\n```"

/-- A backend reply whose fenced block decodes but violates `maxLength=5`. -/
def replyTooLong : String := "```json\n\x7b\"message\":\"toolong\"\x7d\n```"

/-- A backend reply with no fenced block and no valid raw JSON. -/
def replyNotJSON : String := "no json here"

/-- A `Run` environment returning `replyHappy`. -/
def envHappy : RunEnv where
  apiKey := "k"
  complete := fun _ => .ok replyHappy
  ctxErrAfter := none

/-- A `Run` environment returning `replyTooLong`. -/
def envTooLong : RunEnv where
  apiKey := "k"
  complete := fun _ => .ok replyTooLong
  ctxErrAfter := none

/-- A `Run` environment returning `replyNotJSON`. -/
def envNotJSON : RunEnv where
  apiKey := "k"
  complete := fun _ => .ok replyNotJSON
  ctxErrAfter := none

/-- A `Run` environment in which the backend call ends with the context's
deadline expired. -/
def envDeadline : RunEnv where
  apiKey := "k"
  complete := fun _ => .error (.sentinel .ctxDeadline)
  ctxErrAfter := some .deadline

/-- The backend error of `envCanceled`: the provider's wrap of the caller's
cancellation. -/
def canceledErrW : GoError := .wrap "openai completion failed" (.sentinel .ctxCanceled)

/-- A `Run` environment in which the caller cancelled the context. -/
def envCanceled : RunEnv where
  apiKey := "k"
  complete := fun _ => .error canceledErrW
  ctxErrAfter := some .canceled

/-- A `Run` environment in which the backend reports its rate-limit
sentinel. -/
def envRateLimit : RunEnv where
  apiKey := "k"
  complete := fun _ => .error (.wrap "openai completion failed" (.sentinel .providerRateLimit))
  ctxErrAfter := none

/-- A `Run` environment with the backend credential absent. -/
def envNoKey : RunEnv where
  apiKey := ""
  complete := fun _ => .ok "never called"
  ctxErrAfter := none

/-- The error `ensureDefaultConfig` produces when the credential is absent. -/
def cfgErrW : GoError :=
  .wrap "failed to create default provider"
    (.msg "OPENAI_API_KEY environment variable is required")

/-! ### Concrete templates for the rendering scenario -/

/-- The spec's template text, with bare identifiers in the actions. -/
def tmplBad : String := "Hello \x7b\x7bName\x7d\x7d, \x7b\x7bMessage\x7d\x7d"

/-- The template text with field references, as the repository's own
templates are written. -/
def tmplGood : String := "Hello \x7b\x7b.Name\x7d\x7d, \x7b\x7b.Message\x7d\x7d"

/-- The zero value of the input struct: both fields present and empty. -/
def helloZero : String → Option String := fun n =>
  if n = "Name" ∨ n = "Message" then some "" else none

/-- The input `\x7bName: "Alice", Message: "how are you?"\x7d`. -/
def helloAlice : String → Option String := fun n =>
  if n = "Name" then some "Alice"
  else if n = "Message" then some "how are you?"
  else none

/-- The parsed form of `tmplGood`. -/
def helloParts : List TmplPart :=
  [.lit "Hello ", .field "Name", .lit ", ", .field "Message", .lit ""]

/-! ## Theorems -/

theorem muxLoop_shape {hooks : List Hook} {evs : List SelEvent} {tr : List OutEvent}
    (h : muxLoop hooks evs = some tr) :
    ∃ (toks : List String) (term : OutEvent),
      tr = toks.map OutEvent.tok ++ [term] ∧ isTerminal term = true := by
  induction evs generalizing tr with
  | nil => simp [muxLoop] at h
  | cons e rest ih =>
    cases e with
    | ctxDone ce =>
      simp only [muxLoop, Option.some.injEq] at h
      exact ⟨[], .errOut (some ce.toErr), h.symm, rfl⟩
    | contentClosed inner =>
      cases inner with
      | some e? =>
        simp only [muxLoop, Option.some.injEq] at h
        exact ⟨[], .errOut e?, h.symm, rfl⟩
      | none =>
        simp only [muxLoop, Option.some.injEq] at h
        exact ⟨[], .doneOut, h.symm, rfl⟩
    | errItem e? =>
      simp only [muxLoop, Option.some.injEq] at h
      exact ⟨[], .errOut e?, h.symm, rfl⟩
    | errClosed =>
      simp only [muxLoop] at h
      exact ih h
    | token t preempt =>
      simp only [muxLoop] at h
      cases hch : afterChain hooks t with
      | error he =>
        rw [hch] at h
        simp only [Option.some.injEq] at h
        exact ⟨[], .errOut (some he), h.symm, rfl⟩
      | ok t2 =>
        rw [hch] at h
        cases preempt with
        | some ce =>
          simp only [Option.some.injEq] at h
          exact ⟨[], .errOut (some ce.toErr), h.symm, rfl⟩
        | none =>
          cases hm : muxLoop hooks rest with
          | none => rw [hm] at h; cases h
          | some tr2 =>
            rw [hm] at h
            simp only [Option.some.injEq] at h
            obtain ⟨toks, term, htr, hterm⟩ := ih hm
            exact ⟨t2 :: toks, term, by simp [← h, htr], hterm⟩

theorem terminalCount_append (xs ys : List OutEvent) :
    terminalCount (xs ++ ys) = terminalCount xs + terminalCount ys := by
  simp [terminalCount, List.filter_append]

theorem terminalCount_tokens (toks : List String) :
    terminalCount (toks.map OutEvent.tok) = 0 := by
  induction toks with
  | nil => rfl
  | cons a l ih => simp [terminalCount, List.filter, isTerminal, ih]

theorem isClose_eq_false_of_isTerminal {e : OutEvent} (h : isTerminal e = true) :
    isClose e = false := by
  cases e <;> simp [isTerminal, isClose] at h ⊢

theorem noContentAfterError_tokens (toks : List String) (rest : List OutEvent)
    (h : noContentAfterError rest = true) :
    noContentAfterError (toks.map OutEvent.tok ++ rest) = true := by
  induction toks with
  | nil => simp [h]
  | cons a l ih => simp [noContentAfterError, isErrOut, ih]

/-- C2: for every terminated execution of the Stream multiplexer's background
task, whatever branch terminated it, exactly one terminal signal is sent
(one error value or one completion value, never both), all three output
channels are closed — at the very end, after every send — and no content
token is sent after the error signal. -/
theorem stream_terminal_invariant (hooks : List Hook) (events : List SelEvent)
    (tr : List OutEvent) (h : muxRun hooks events = some tr) :
    terminalCount tr = 1 ∧
    (∃ pre, tr = pre ++ [.closeContent, .closeErr, .closeDone] ∧
      (pre.all fun e => !isClose e) = true) ∧
    noContentAfterError tr = true := by
  unfold muxRun at h
  cases hm : muxLoop hooks events with
  | none => rw [hm] at h; cases h
  | some body =>
    rw [hm] at h
    simp only [Option.some.injEq] at h
    obtain ⟨toks, term, hbody, hterm⟩ := muxLoop_shape hm
    subst hbody
    refine ⟨?_, ?_, ?_⟩
    · rw [← h, terminalCount_append, terminalCount_append, terminalCount_tokens]
      have h1 : terminalCount [term] = 1 := by
        simp [terminalCount, List.filter, hterm]
      have h2 : terminalCount [OutEvent.closeContent, .closeErr, .closeDone] = 0 := rfl
      omega
    · refine ⟨toks.map OutEvent.tok ++ [term], by simp [← h], ?_⟩
      have hterm2 := isClose_eq_false_of_isTerminal hterm
      simp only [List.all_append, Bool.and_eq_true]
      refine ⟨?_, ?_⟩
      · simp only [List.all_eq_true, List.mem_map]
        rintro e ⟨s, _, rfl⟩
        simp [isClose]
      · simp [List.all, hterm2]
    · rw [← h, List.append_assoc]
      refine noContentAfterError_tokens toks _ ?_
      cases term <;> simp [isTerminal] at hterm <;>
        simp [noContentAfterError, isErrOut, isTok, List.all]

/-- Witness for C2: the invariant holds on the concrete execution in which
the content source closes cleanly. -/
theorem stream_terminal_invariant_witness :
    terminalCount [OutEvent.doneOut, .closeContent, .closeErr, .closeDone] = 1 ∧
    (∃ pre, [OutEvent.doneOut, .closeContent, .closeErr, .closeDone] =
        pre ++ [.closeContent, .closeErr, .closeDone] ∧
      (pre.all fun e => !isClose e) = true) ∧
    noContentAfterError [OutEvent.doneOut, .closeContent, .closeErr, .closeDone] = true :=
  stream_terminal_invariant [] [.contentClosed none] _ rfl

/-- C3 (failing execution): a backend that emits one token on its content
source and then, never having emitted any error, closes its error source and
then its content source (the close order of both bundled providers, whose
deferred closes run in that order).  The multiplexer's error-check select
(lines 73-81) then finds the closed error channel ready, receives its zero
value and publishes nil on the error output instead of the completion value;
with the error source still open at that instant the completion value is
published instead.  The claim's promised outcome — completion signal, no
error signal — therefore fails on the first execution. -/
theorem stream_clean_close_emits_nil_error :
    muxRun [] [.token "t1" none, .contentClosed (some none)] =
      some [.tok "t1", .errOut none, .closeContent, .closeErr, .closeDone] ∧
    muxRun [] [.token "t1" none, .contentClosed none] =
      some [.tok "t1", .doneOut, .closeContent, .closeErr, .closeDone] :=
  ⟨rfl, rfl⟩

theorem dropPre_append (p rest : List Char) : dropPre p (p ++ rest) = some rest := by
  induction p with
  | nil => rfl
  | cons c l ih => simp [dropPre, ih]

theorem dropPre_bq3_head_ne {c : Char} (cs : List Char) (h : c ≠ bq) :
    dropPre bq3 (c :: cs) = none := by
  have hne : ¬(bq = c) := fun hh => h hh.symm
  simp [bq3, dropPre, hne]

theorem bqFree_cons {c : Char} {l : List Char} (h : bqFree (c :: l) = true) :
    c ≠ bq ∧ bqFree l = true := by
  simp only [bqFree, List.all_cons, Bool.and_eq_true, decide_eq_true_eq] at h
  exact ⟨h.1, h.2⟩

theorem splitAtPat_bq3_append (body post : List Char) (hb : bqFree body = true) :
    splitAtPat bq3 (body ++ (bq3 ++ post)) = some (body, post) := by
  induction body with
  | nil =>
    have hd : dropPre bq3 (bq :: bq :: bq :: post) = some post := dropPre_append bq3 post
    show splitAtPat bq3 (bq :: bq :: bq :: post) = some ([], post)
    simp only [splitAtPat, hd]
  | cons c l ih =>
    obtain ⟨hc, hl⟩ := bqFree_cons hb
    simp only [List.cons_append, splitAtPat, dropPre_bq3_head_ne _ hc, List.append_eq,
      ih hl]

theorem extractLoop_bqFree (pre rest : List Char) (hp : bqFree pre = true) :
    extractLoop (pre ++ rest) = extractLoop rest := by
  induction pre with
  | nil => rfl
  | cons c l ih =>
    obtain ⟨hc, hl⟩ := bqFree_cons hp
    simp only [List.cons_append, extractLoop, dropPre_bq3_head_ne _ hc, List.append_eq,
      ih hl]

theorem extractLoop_fence (body post : List Char) (hb : bqFree body = true)
    (hjson : dropPre jsonTag (body ++ (bq3 ++ post)) = none) :
    extractLoop (bq3 ++ (body ++ (bq3 ++ post))) = some body := by
  show extractLoop (bq :: bq :: bq :: (body ++ (bq3 ++ post))) = some body
  simp only [extractLoop]
  rw [show (bq :: bq :: bq :: (body ++ (bq3 ++ post))) =
        bq3 ++ (body ++ (bq3 ++ post)) from rfl,
    dropPre_append]
  simp only [fencedBody, hjson, splitAtPat_bq3_append _ _ hb]

theorem extractLoop_fence_json (body post : List Char) (hb : bqFree body = true) :
    extractLoop (bq3 ++ (jsonTag ++ (body ++ (bq3 ++ post)))) = some body := by
  show extractLoop (bq :: bq :: bq :: (jsonTag ++ (body ++ (bq3 ++ post)))) = some body
  simp only [extractLoop]
  rw [show (bq :: bq :: bq :: (jsonTag ++ (body ++ (bq3 ++ post)))) =
        bq3 ++ (jsonTag ++ (body ++ (bq3 ++ post))) from rfl,
    dropPre_append]
  simp only [fencedBody, dropPre_append, splitAtPat_bq3_append _ _ hb]

/-- C1: on the happy path — configuration resolved, template rendered, prompt
wrapped, before-hooks passed, backend completion succeeded with the context
still live, after-hooks passed, the reply carrying a fenced block whose JSON
decodes to a value the schema engine accepts — `Run` returns exactly the
decoded value and a nil error. -/
theorem run_happy_path {O : Type} (g : Generator O) (env : RunEnv)
    (input : String → Option String) (schemaStr : String)
    (dec : String → Except GoError O) (marshal : O → String)
    (engine : String → List String) (p reply reply2 body : String) (v : O)
    (hh : g.handler = jsonHandler schemaStr dec marshal engine)
    (hp : runPrelude g env input = .ok p)
    (hc : env.complete p = .ok reply)
    (hctx : env.ctxErrAfter = none)
    (ha : afterChain g.hooks reply = .ok reply2)
    (hfence : extractFenced reply2 = some body)
    (hdec : dec body = .ok v)
    (hvalid : engine (marshal v) = []) :
    Run g env input = (v, none) := by
  simp only [Run, hp, hc, hctx, ha, hh, jsonHandler, extractOr, hfence, hdec,
    validatorValidate, hvalid]

/-- Witness for C1 at the concrete generator, environment and reply. -/
theorem run_happy_path_witness : Run gW envHappy inputW = (⟨"hi"⟩, none) :=
  run_happy_path gW envHappy inputW schemaW decodeTestOut marshalTestOut engine5
    pW replyHappy replyHappy "\n\x7b\"message\":\"hi\"\x7d\n" ⟨"hi"⟩
    rfl rfl rfl rfl rfl rfl rfl rfl

/-- C4: when the decoded structured value violates the schema, `Run` returns
a `Validation`-classified error (`IsValidation` holds) whose message is
exactly the engine's violation descriptions, each with its `(root).` prefix
trimmed, joined by "; ". -/
theorem run_validation_error {O : Type} (g : Generator O) (env : RunEnv)
    (input : String → Option String) (schemaStr : String)
    (dec : String → Except GoError O) (marshal : O → String)
    (engine : String → List String) (p reply reply2 : String) (v : O)
    (errs : List String)
    (hh : g.handler = jsonHandler schemaStr dec marshal engine)
    (hp : runPrelude g env input = .ok p)
    (hc : env.complete p = .ok reply)
    (hctx : env.ctxErrAfter = none)
    (ha : afterChain g.hooks reply = .ok reply2)
    (hdec : dec (extractOr reply2) = .ok v)
    (hviol : engine (marshal v) = errs)
    (hne : errs ≠ []) :
    Run g env input = (v, some (.structured "validation_failed"
      (String.intercalate "; " (errs.map trimRoot)) ErrValidation)) ∧
    IsValidation (Run g env input).2 = true := by
  have hrun : Run g env input = (v, some (.structured "validation_failed"
      (String.intercalate "; " (errs.map trimRoot)) ErrValidation)) := by
    cases errs with
    | nil => exact absurd rfl hne
    | cons e0 es =>
      simp only [Run, hp, hc, hctx, ha, hh, jsonHandler, hdec, validatorValidate, hviol,
        GoError.text]
  refine ⟨hrun, ?_⟩
  rw [hrun]
  rfl

/-- Witness for C4: the reply's `message` value has 7 characters against
`maxLength=5`; the violation text is surfaced, trimmed and classified. -/
theorem run_validation_error_witness :
    Run gW envTooLong inputW = (⟨"toolong"⟩, some (.structured "validation_failed"
      "message: String length must be less than or equal to 5" ErrValidation)) ∧
    IsValidation (Run gW envTooLong inputW).2 = true := by
  have h := run_validation_error gW envTooLong inputW schemaW decodeTestOut
    marshalTestOut engine5 pW replyTooLong replyTooLong ⟨"toolong"⟩
    ["(root).message: String length must be less than or equal to 5"]
    rfl rfl rfl rfl rfl rfl rfl (by simp)
  exact ⟨h.1, h.2⟩

/-- C5: the structured strategy's `Parse` decodes the capture of the first
fenced block — the extraction pattern matches the leftmost fence, consuming a
`json` tag when one follows the opening fence — and falls back to decoding
the whole reply when no fence matches; whenever the chosen route fails to
decode, `Run` returns an `InvalidResponse`-classified error. -/
theorem json_parse_extraction {O : Type} (schemaStr : String)
    (dec : String → Except GoError O) (marshal : O → String)
    (engine : String → List String) :
    (∀ pre body post : List Char, bqFree pre = true → bqFree body = true →
      dropPre jsonTag (body ++ (bq3 ++ post)) = none →
      extractLoop (pre ++ (bq3 ++ (body ++ (bq3 ++ post)))) = some body) ∧
    (∀ pre body post : List Char, bqFree pre = true → bqFree body = true →
      extractLoop (pre ++ (bq3 ++ (jsonTag ++ (body ++ (bq3 ++ post))))) = some body) ∧
    (∀ resp : String,
      (jsonHandler schemaStr dec marshal engine).parse resp = wrapDec (dec (extractOr resp))) ∧
    (∀ resp : String, extractFenced resp = none → extractOr resp = resp) ∧
    (∀ (g : Generator O) (env : RunEnv) (input : String → Option String)
      (p reply reply2 : String) (e : GoError),
      g.handler = jsonHandler schemaStr dec marshal engine →
      runPrelude g env input = .ok p → env.complete p = .ok reply →
      env.ctxErrAfter = none → afterChain g.hooks reply = .ok reply2 →
      dec (extractOr reply2) = .error e →
      Run g env input = (g.zero, some (.structured "parse_failed"
        ("failed to parse response: " ++ ("failed to parse JSON: " ++ e.text))
        ErrInvalidResponse)) ∧
      errorsIs (Run g env input).2 .invalidResponse = true) := by
  refine ⟨?_, ?_, ?_, ?_, ?_⟩
  · intro pre body post hpre hb hjson
    rw [extractLoop_bqFree _ _ hpre, extractLoop_fence _ _ hb hjson]
  · intro pre body post hpre hb
    rw [extractLoop_bqFree _ _ hpre, extractLoop_fence_json _ _ hb]
  · intro resp
    cases h : dec (extractOr resp) <;> simp [jsonHandler, wrapDec, h]
  · intro resp h
    simp [extractOr, h]
  · intro g env input p reply reply2 e hh hp hc hctx ha hdec
    have hrun : Run g env input = (g.zero, some (.structured "parse_failed"
        ("failed to parse response: " ++ ("failed to parse JSON: " ++ e.text))
        ErrInvalidResponse)) := by
      simp only [Run, hp, hc, hctx, ha, hh, jsonHandler, hdec, GoError.text]
      rfl
    refine ⟨hrun, ?_⟩
    rw [hrun]
    rfl

/-- Witness for C5: a reply with no fence and no valid raw JSON makes `Run`
fail with the `InvalidResponse` classification; a fenced reply is captured at
its first fence with the `json` tag consumed. -/
theorem json_parse_extraction_witness :
    Run gW envNotJSON inputW = (gW.zero, some (.structured "parse_failed"
      ("failed to parse response: " ++ ("failed to parse JSON: " ++
        GoError.text (.msg "invalid JSON for TestOut")))
      ErrInvalidResponse)) ∧
    errorsIs (Run gW envNotJSON inputW).2 .invalidResponse = true ∧
    extractLoop ("x: ".toList ++ (bq3 ++ (jsonTag ++ (" 1 ".toList ++ (bq3 ++ " tail".toList))))) =
      some " 1 ".toList := by
  have h5 := json_parse_extraction (O := TestOut) schemaW decodeTestOut
    marshalTestOut engine5
  have hmain := h5.2.2.2.2 gW envNotJSON inputW pW replyNotJSON replyNotJSON
    (.msg "invalid JSON for TestOut") rfl rfl rfl rfl rfl rfl
  exact ⟨hmain.1, hmain.2,
    h5.2.1 "x: ".toList " 1 ".toList " tail".toList rfl rfl⟩

/-- C6: with a non-zero timeout configured, a backend call that ends with the
deadline expired — whether the expiry surfaces in the returned error chain,
alongside a returned error, or even after a successful response — makes `Run`
return the `Timeout`-classified sentinel together with the zero value of the
output type (no partially-parsed value); a call ending in explicit caller
cancellation instead returns a `request canceled` wrap of the backend's
error, which is not `Timeout`-classified. -/
theorem run_timeout_vs_cancel {O : Type} (g : Generator O) (env : RunEnv)
    (input : String → Option String) (p : String)
    (_ht : 0 < g.timeout)
    (hp : runPrelude g env input = .ok p) :
    (∀ err : GoError, env.complete p = .error err →
      (err.is .ctxDeadline = true ∨ env.ctxErrAfter = some .deadline) →
      Run g env input = (g.zero, some ErrTimeout) ∧
      IsTimeout (Run g env input).2 = true) ∧
    (∀ reply : String, env.complete p = .ok reply →
      env.ctxErrAfter = some .deadline →
      Run g env input = (g.zero, some ErrTimeout) ∧
      IsTimeout (Run g env input).2 = true) ∧
    (∀ err : GoError, env.complete p = .error err →
      err.is .ctxCanceled = true → err.is .ctxDeadline = false →
      env.ctxErrAfter ≠ some .deadline → err.is .timeout = false →
      Run g env input = (g.zero, some (.wrap "request canceled" err)) ∧
      IsTimeout (Run g env input).2 = false) := by
  refine ⟨?_, ?_, ?_⟩
  · intro err hc hdl
    have hcls : classifyCompleteError err env.ctxErrAfter = ErrTimeout := by
      rcases hdl with h1 | h1 <;> simp [classifyCompleteError, h1]
    have hrun : Run g env input = (g.zero, some ErrTimeout) := by
      simp only [Run, hp, hc, hcls]
    refine ⟨hrun, ?_⟩
    rw [hrun]
    rfl
  · intro reply hc hctx
    have hrun : Run g env input = (g.zero, some ErrTimeout) := by
      simp only [Run, hp, hc, hctx]
    refine ⟨hrun, ?_⟩
    rw [hrun]
    rfl
  · intro err hc hcan hdl hctx htm
    have hcond : ¬(err.is .ctxDeadline = true ∨ env.ctxErrAfter = some .deadline) := by
      simp [hdl, hctx]
    have hrun : Run g env input = (g.zero, some (.wrap "request canceled" err)) := by
      simp only [Run, hp, hc, classifyCompleteError, if_neg hcond, hcan, if_pos]
    refine ⟨hrun, ?_⟩
    rw [hrun]
    simp [IsTimeout, errorsIs, GoError.is, htm]

/-- Witness for C6: the deadline environment produces the `Timeout` sentinel
and the zero value; the cancellation environment produces the unclassified
`request canceled` wrap. -/
theorem run_timeout_vs_cancel_witness :
    (Run gTimeoutW envDeadline inputW = (gTimeoutW.zero, some ErrTimeout) ∧
      IsTimeout (Run gTimeoutW envDeadline inputW).2 = true) ∧
    (Run gTimeoutW envCanceled inputW =
        (gTimeoutW.zero, some (.wrap "request canceled" canceledErrW)) ∧
      IsTimeout (Run gTimeoutW envCanceled inputW).2 = false) := by
  have h1 := run_timeout_vs_cancel gTimeoutW envDeadline inputW pW
    (by decide) rfl
  have h2 := run_timeout_vs_cancel gTimeoutW envCanceled inputW pW
    (by decide) rfl
  exact ⟨h1.1 (.sentinel .ctxDeadline) rfl (Or.inl rfl),
    h2.2.2 canceledErrW rfl rfl rfl (by decide) rfl⟩

/-- C7: whenever the backend's `Complete` returns a non-nil error, `Run`
returns the zero value with the classified error at once: the result is fully
determined by the error and the context state (the classification cases
spelled out by `classifyCompleteError`, unclassified errors passing through
unchanged), and two generators whose preludes produced the same prompt give
identical results regardless of their handlers and `AfterResponse` hooks — no
after-hook, parse or validation runs. -/
theorem run_backend_error_short_circuits {O : Type} (g : Generator O)
    (env : RunEnv) (input : String → Option String) (p : String) (err : GoError)
    (hp : runPrelude g env input = .ok p)
    (herr : env.complete p = .error err) :
    Run g env input = (g.zero, some (classifyCompleteError err env.ctxErrAfter)) ∧
    (err.is .ctxDeadline = false → env.ctxErrAfter ≠ some .deadline →
      err.is .ctxCanceled = false → err.is .providerRateLimit = false →
      err.is .providerContextLength = false →
      Run g env input = (g.zero, some err)) ∧
    (∀ g2 : Generator O, g2.zero = g.zero → runPrelude g2 env input = .ok p →
      Run g2 env input = Run g env input) := by
  have hrun : Run g env input = (g.zero, some (classifyCompleteError err env.ctxErrAfter)) := by
    simp only [Run, hp, herr]
  refine ⟨hrun, ?_, ?_⟩
  · intro h1 h2 h3 h4 h5
    rw [hrun]
    simp [classifyCompleteError, h1, h2, h3, h4, h5]
  · intro g2 hz hp2
    have hrun2 : Run g2 env input =
        (g2.zero, some (classifyCompleteError err env.ctxErrAfter)) := by
      simp only [Run, hp2, herr]
    rw [hrun, hrun2, hz]

/-- Witness for C7: the provider's rate-limit sentinel is reclassified to the
package's `ErrRateLimit` with the zero value returned. -/
theorem run_backend_error_short_circuits_witness :
    Run gW envRateLimit inputW = (gW.zero, some ErrRateLimit) := by
  have h := run_backend_error_short_circuits gW envRateLimit inputW pW
    (.wrap "openai completion failed" (.sentinel .providerRateLimit)) rfl rfl
  exact h.1.trans (by rfl)

/-- C8 counterexample: with no provider configured and the credential absent,
`Stream` does return an error, but — unlike `Run`, which wraps the failure in
the `Error` struct carrying `ErrConfiguration` — it returns the
`ensureDefaultConfig` error as-is, whose unwrap chain contains no
`ErrConfiguration` sentinel, so the error is not `Configuration`-classified. -/
theorem stream_config_error_unclassified :
    streamSetup gNoProvW "" inputW none = .error cfgErrW ∧
    cfgErrW.is .configuration = false :=
  ⟨rfl, rfl⟩

/-- C8 (amended): with no provider configured and the credential absent,
`Run` fails with a `Configuration`-classified error and `Stream` fails with
the same underlying configuration failure left unclassified; neither panics
(both are total and return) and neither consults the backend (the results do
not depend on the environment's `complete` function or on the stream
initiation outcome). -/
theorem config_missing_key_behavior {O : Type} (g : Generator O) (env : RunEnv)
    (input : String → Option String)
    (hprov : g.hasProvider = false) (hkey : env.apiKey = "") :
    Run g env input =
      (g.zero, some (.structured "config_error" cfgErrW.text ErrConfiguration)) ∧
    errorsIs (Run g env input).2 .configuration = true ∧
    (∀ initErr : Option GoError, streamSetup g env.apiKey input initErr = .error cfgErrW) ∧
    cfgErrW.is .configuration = false := by
  have hcfg : ensureDefaultConfig g.hasProvider env.apiKey = some cfgErrW := by
    simp [ensureDefaultConfig, hprov, hkey, cfgErrW]
  have hrun : Run g env input =
      (g.zero, some (.structured "config_error" cfgErrW.text ErrConfiguration)) := by
    simp only [Run, runPrelude, hcfg]
  refine ⟨hrun, ?_, ?_, rfl⟩
  · rw [hrun]
    rfl
  · intro initErr
    simp only [streamSetup, hcfg]

/-- Witness for C8 at the concrete generator and credential-free
environment. -/
theorem config_missing_key_behavior_witness :
    Run gNoProvW envNoKey inputW =
      (gNoProvW.zero, some (.structured "config_error" cfgErrW.text ErrConfiguration)) ∧
    streamSetup gNoProvW "" inputW none = .error cfgErrW := by
  have h := config_missing_key_behavior gNoProvW envNoKey inputW rfl rfl
  exact ⟨h.1, h.2.2.1 none⟩

/-- C9 counterexample: the spec's template text uses bare identifiers in its
actions; `text/template` treats a bare identifier as a function call and no
function `Name` is defined, so `Create`'s template compilation fails — the
generator is never constructed, contradicting the claimed successful render. -/
theorem template_bare_identifier_rejected :
    templateCreate tmplBad helloZero =
      .error (.wrap "invalid template" (.msg "function Name not defined")) := rfl

/-- C9 (amended): with field references in the actions — the form every
template in the repository uses — construction succeeds (parse plus
zero-value probe) and rendering the input `Name = "Alice"`,
`Message = "how are you?"` produces exactly `"Hello Alice, how are you?"`. -/
theorem template_field_reference_renders :
    templateCreate tmplGood helloZero = .ok helloParts ∧
    executeTemplate helloParts helloAlice = .ok "Hello Alice, how are you?" :=
  ⟨rfl, rfl⟩

/-- C10: `DetermineType` sends exactly `string` to the textual strategy and
exactly `int`, `float64`, `bool` to the corresponding primitive strategies;
every other output type — including the numeric types `int64` and `float32` —
is sent to the structured-JSON strategy, and `Create`'s switch instantiates
the matching handler. -/
theorem determine_type_selects_strategies (t : GoType)
    (h : t ≠ .stringT ∧ t ≠ .intT ∧ t ≠ .float64T ∧ t ≠ .boolT) :
    (DetermineType t = .typeJSON ∧ createHandlerKind t = .ok (some .jsonH)) ∧
    (DetermineType .stringT = .typeString ∧
      createHandlerKind .stringT = .ok (some .stringH)) ∧
    (DetermineType .intT = .typePrimitive ∧
      createHandlerKind .intT = .ok (some .intH)) ∧
    (DetermineType .float64T = .typePrimitive ∧
      createHandlerKind .float64T = .ok (some .floatH)) ∧
    (DetermineType .boolT = .typePrimitive ∧
      createHandlerKind .boolT = .ok (some .boolH)) := by
  obtain ⟨h1, h2, h3, h4⟩ := h
  refine ⟨⟨?_, ?_⟩, ⟨rfl, rfl⟩, ⟨rfl, rfl⟩, ⟨rfl, rfl⟩, ⟨rfl, rfl⟩⟩
  · cases t <;> first | rfl | simp_all
  · cases t <;> first | rfl | simp_all

/-- Witness for C10 at `int64`, one of the numeric types the claim singles
out. -/
theorem determine_type_selects_strategies_witness :
    (DetermineType .int64T = .typeJSON ∧
      createHandlerKind .int64T = .ok (some .jsonH)) ∧
    (DetermineType .stringT = .typeString ∧
      createHandlerKind .stringT = .ok (some .stringH)) ∧
    (DetermineType .intT = .typePrimitive ∧
      createHandlerKind .intT = .ok (some .intH)) ∧
    (DetermineType .float64T = .typePrimitive ∧
      createHandlerKind .float64T = .ok (some .floatH)) ∧
    (DetermineType .boolT = .typePrimitive ∧
      createHandlerKind .boolT = .ok (some .boolH)) :=
  determine_type_selects_strategies .int64T (by simp)

end Promptgen
